import Mathlib

/-!
Shallow embedding of `wptrunner/executors/executormarionette.py` (the Marionette
executor of wptrunner) and proofs about its timed-call supervisor, session
lifecycle, and per-test-kind policies.

Conventions used throughout:
* Calls into the external Marionette client are modelled by explicit parameters
  describing their outcome (returned normally, or raised a given exception).
* Python exceptions are modelled by small inductive types naming the exception
  classes that the source distinguishes.
* Durations are rationals measured in the unit the source uses at that point
  (seconds for timeouts, milliseconds for the remote script timeout).
-/

namespace Wptrunner

/-- Line 37: `extra_timeout = 5` (seconds), the fixed grace period. -/
def extra_timeout : ℚ := 5

/-- A Python exception object as it is observable by whoever receives it:
in Python 2 only the message (and class) travel with the instance; the
traceback is not attached to the exception object itself. -/
structure ExcObj where
  message : String
deriving DecidableEq

/-- The second component of the shared `self.result` slot of `MarionetteRun`:
either the value the remote call returned (paired with `True`) or a
`(status, detail)` pair (paired with `False`). -/
inductive TestData
  | value (p : String)
  | failure (status : String) (detail : Option ExcObj)
deriving DecidableEq

/-- The full contents of the `self.result` slot: the Python pair
`success, data`. -/
abbrev RunResult := Bool × TestData

/-- The exceptions distinguished by the handlers of `MarionetteRun._run`
(lines 174-187).  `other` carries the exception's message and the text that
`traceback.format_exc` would produce for it. -/
inductive WorkerExc
  | scriptTimeout
  | socketTimeout
  | invalidResponse
  | ioError
  | other (message : String) (trace : String)
deriving DecidableEq

/-- Behaviour of `self.func(self.marionette, self.url, self.timeout)` inside
the worker thread: it either returns a payload or raises. -/
inductive WorkerCall
  | returns (p : String)
  | raises (e : WorkerExc)
deriving DecidableEq

/-- The local variable `message` computed in the generic handler of
`MarionetteRun._run` (lines 183-186): the exception's `message` attribute,
a newline when that is nonempty, then the formatted traceback.  The source
computes this string and then never uses it. -/
def handlerMessage (message trace : String) : String :=
  (if message = "" then "" else message ++ "\n") ++ trace

/-- `MarionetteRun._run` (lines 171-190): runs the remote call on the worker
thread and records the classified result in the shared slot (the flag is set
afterwards in the `finally`).  Note that the generic handler stores the
exception object `e` itself as the detail, not the `message` local it just
computed. -/
def MarionetteRun._run : WorkerCall → RunResult
  | .returns p => (true, .value p)
  | .raises .scriptTimeout => (false, .failure "EXTERNAL-TIMEOUT" none)
  | .raises .socketTimeout => (false, .failure "CRASH" none)
  | .raises .invalidResponse => (false, .failure "CRASH" none)
  | .raises .ioError => (false, .failure "CRASH" none)
  | .raises (.other message _trace) => (false, .failure "ERROR" (some ⟨message⟩))

/-- What `MarionetteTestharnessExecutor.do_test` (lines 212-223) produces
from the pair returned by `MarionetteRun.run`: a success payload is handed to
`self.convert_result`, a failure pair becomes `(test.result_cls(*data), [])`
— a result with an empty subtest list. -/
inductive HarnessOutcome
  | convertedResult (data : TestData)
  | plainResult (data : TestData) (subtests : List String)
deriving DecidableEq

/-- The result mapping of `MarionetteTestharnessExecutor.do_test`
(lines 220-223). -/
def MarionetteTestharnessExecutor.do_test : RunResult → HarnessOutcome
  | (true, data) => .convertedResult data
  | (false, data) => .plainResult data []

/-- Behaviour of the `self.marionette.set_script_timeout(...)` call at
lines 145/150.  Line 151 reads `except IOError, marionette.errors.InvalidResponseException:`
which in Python 2 catches only `IOError` (binding the caught instance to the
attribute on the right); an `InvalidResponseException` raised here is not
caught. -/
inductive SetTimeoutCall
  | ok
  | raisesIOError
  | raisesInvalidResponse
deriving DecidableEq

/-- What a call to `MarionetteRun.run` produces towards the caller: a normal
return value, the `Stop` sentinel imported from `..testrunner` (line 153), or
an exception propagating out of `run` uncaught. -/
inductive RunReturn
  | value (r : RunResult)
  | stop
  | uncaught (e : SetTimeoutCall)
deriving DecidableEq

/-- Observable effects of one `MarionetteRun.run` call: the argument passed to
`marionette.set_script_timeout` (milliseconds), and the bound passed to
`self.result_flag.wait` (`some none` meaning the wait was entered with no
bound, `none` meaning the wait was never reached). -/
structure RunEffects where
  scriptTimeoutMs : Option ℚ
  waitBound : Option (Option ℚ)
deriving DecidableEq

/-- `MarionetteRun.run` (lines 140-169) at the granularity where the slot is
read once when the wait returns.  `workerRecordedInTime` states whether the
worker had recorded its result in the slot by the time the supervisor checks
it at line 164; when `timeout` is `none` the wait at line 163 has no bound and
only returns once the flag is set, so the worker's recorded result is returned
whatever `workerRecordedInTime` says.  (A worker whose remote call never
terminates at all is outside this model: then `run` with `timeout = none`
never returns.)  The finer-grained interleavings of the slot accesses at
lines 164-169 are modelled separately by `MarionetteRun.runTail`. -/
def MarionetteRun.run (timeout : Option ℚ) (setCall : SetTimeoutCall)
    (workerRecordedInTime : Bool) (worker : WorkerCall) : RunReturn × RunEffects :=
  let ms : ℚ :=
    match timeout with
    | some t => (t + extra_timeout) * 1000
    | none => 2 ^ 31 - 1
  match setCall with
  | .raisesIOError => (.stop, ⟨some ms, none⟩)
  | .raisesInvalidResponse => (.uncaught .raisesInvalidResponse, ⟨some ms, none⟩)
  | .ok =>
    let wait_timeout : Option ℚ :=
      match timeout with
      | some t => some (t + 2 * extra_timeout)
      | none => none
    let eff : RunEffects := ⟨some ms, some wait_timeout⟩
    match timeout, workerRecordedInTime with
    | some _, false => (.value (false, .failure "EXTERNAL-TIMEOUT" none), eff)
    | _, _ => (.value (MarionetteRun._run worker), eff)

/-- C1: with a finite deadline `d`, `run` first passes `(d + grace) * 1000`
milliseconds to the remote `set_script_timeout` (grace = `extra_timeout` = 5
seconds), waits on the result flag with bound `d + 2 * grace` seconds, and
returns the failure outcome `("EXTERNAL-TIMEOUT", None)` when the worker has
recorded nothing by then (otherwise the worker's recorded result); with
deadline `None` it sets the remote script timeout to `2 ^ 31 - 1` and waits
with no bound, returning whatever the worker eventually records. -/
theorem MarionetteRun_run_timeout_composition (d : ℚ) (w : WorkerCall) (b : Bool) :
    MarionetteRun.run (some d) .ok false w
      = (.value (false, .failure "EXTERNAL-TIMEOUT" none),
         ⟨some ((d + extra_timeout) * 1000), some (some (d + 2 * extra_timeout))⟩)
    ∧ MarionetteRun.run (some d) .ok true w
      = (.value (MarionetteRun._run w),
         ⟨some ((d + extra_timeout) * 1000), some (some (d + 2 * extra_timeout))⟩)
    ∧ MarionetteRun.run none .ok b w
      = (.value (MarionetteRun._run w), ⟨some ((2 : ℚ) ^ 31 - 1), some none⟩)
    ∧ extra_timeout = 5 := by
  refine ⟨rfl, rfl, ?_, rfl⟩
  cases b <;> rfl

/-- C6: evaluation of the two ways `set_script_timeout` can fail on a dead
transport.  An `IOError` is caught (line 151) and `run` returns the `Stop`
sentinel to the caller without retrying; an `InvalidResponseException`,
although named on line 151, is not caught by the Python 2 `except A, B:`
form and propagates out of `run` uncaught. -/
theorem MarionetteRun_run_set_timeout_failure_eval :
    (MarionetteRun.run (some 10) .raisesIOError true (.returns "v")).1 = .stop
    ∧ (MarionetteRun.run (some 10) .raisesIOError true (.returns "v")).2.waitBound = none
    ∧ (MarionetteRun.run (some 10) .raisesInvalidResponse true (.returns "v")).1
        = .uncaught .raisesInvalidResponse := by
  exact ⟨rfl, rfl, rfl⟩

/-- C3: the worker's exception classification (lines 171-190) is total over
the distinguished exception classes, and evaluation at the failing input: a
generic exception with message "boom" and formatted traceback "TRACE" is
classified `("ERROR", e)` where the stored detail is the exception object
carrying only "boom" — the `message` local combining the message with the
formatted trace is computed (lines 183-186) and then discarded, so the detail
the caller receives does not carry the trace. -/
theorem MarionetteRun_error_detail_drops_trace (p m tr : String) :
    MarionetteRun._run (.returns p) = (true, .value p)
    ∧ MarionetteRun._run (.raises .scriptTimeout) = (false, .failure "EXTERNAL-TIMEOUT" none)
    ∧ MarionetteRun._run (.raises .socketTimeout) = (false, .failure "CRASH" none)
    ∧ MarionetteRun._run (.raises .invalidResponse) = (false, .failure "CRASH" none)
    ∧ MarionetteRun._run (.raises .ioError) = (false, .failure "CRASH" none)
    ∧ MarionetteRun._run (.raises (.other m tr)) = (false, .failure "ERROR" (some ⟨m⟩))
    ∧ MarionetteRun._run (.raises (.other "boom" "TRACE"))
        = (false, .failure "ERROR" (some ⟨"boom"⟩))
    ∧ handlerMessage "boom" "TRACE" = "boom\nTRACE"
    ∧ (⟨"boom"⟩ : ExcObj) ≠ ⟨handlerMessage "boom" "TRACE"⟩
    ∧ (∀ data, MarionetteTestharnessExecutor.do_test (true, data) = .convertedResult data)
    ∧ (∀ data, MarionetteTestharnessExecutor.do_test (false, data) = .plainResult data []) := by
  refine ⟨rfl, rfl, rfl, rfl, rfl, rfl, rfl, by decide, by decide, fun _ => rfl, fun _ => rfl⟩

/-- Position of the abandoned worker thread's single write to `self.result`
relative to the supervisor's three slot accesses after `result_flag.wait`
returns (lines 163-169): the check `self.result is None` (line 164), the
conditional timeout write (line 167), and the final read `return self.result`
(line 169).  `noWrite` means the worker performs no write during this window
(it is still hung). -/
inductive LateWritePos
  | beforeCheck
  | betweenCheckAndWrite
  | betweenWriteAndReturn
  | afterReturn
  | noWrite
deriving DecidableEq

/-- Outcome of the supervisor's tail: what `run` returns to its caller, the
final contents of the slot, and whether the timeout write at line 167
executed. -/
structure TailResult where
  returned : RunResult
  finalSlot : Option RunResult
  timeoutRecorded : Bool
deriving DecidableEq

/-- Lines 164-169 of `MarionetteRun.run` after `result_flag.wait` has
returned, with the worker's write of `w` interleaved at `pos`.  `init` is the
slot contents at the moment the wait returned.  There is no guard on the
slot: the worker's write is a plain assignment, and the value returned to the
caller is whatever the final read at line 169 sees. -/
def MarionetteRun.runTail (init : Option RunResult) (w : RunResult)
    (pos : LateWritePos) : TailResult :=
  let a1 := if pos = .beforeCheck then some w else init
  let check := a1
  let a2 := if pos = .betweenCheckAndWrite then some w else a1
  let a3 := if check = none then some ((false, .failure "EXTERNAL-TIMEOUT" none) : RunResult) else a2
  let a4 := if pos = .betweenWriteAndReturn then some w else a3
  let returned := a4.getD (false, .failure "EXTERNAL-TIMEOUT" none)
  let a5 := if pos = .afterReturn then some w else a4
  ⟨returned, a5, check.isNone⟩

/-- C2 counterexample: the result slot is unguarded.  After the wait timed
out with the slot still empty, the supervisor records the timeout (line 167),
but a late worker write landing between that write and the final read at
line 169 is returned to the caller in place of the recorded timeout — the
late write is not a no-op. -/
theorem MarionetteRun_runTail_late_write_counterexample :
    (MarionetteRun.runTail none (true, .value "late") .betweenWriteAndReturn).timeoutRecorded
      = true
    ∧ (MarionetteRun.runTail none (true, .value "late") .betweenWriteAndReturn).returned
      = (true, .value "late")
    ∧ (MarionetteRun.runTail none (true, .value "late") .betweenWriteAndReturn).returned
      ≠ (false, .failure "EXTERNAL-TIMEOUT" none) := by
  exact ⟨rfl, rfl, by decide⟩

/-- C2 amended: each call returns exactly one outcome, but the slot is
unguarded; when the supervisor found the slot empty and recorded the timeout,
the caller receives that timeout only if the worker's late write lands before
the timeout write (where it is overwritten) or after the final read (or never
lands). -/
theorem MarionetteRun_runTail_guarded_positions (w : RunResult) (pos : LateWritePos)
    (h : pos = .betweenCheckAndWrite ∨ pos = .afterReturn ∨ pos = .noWrite) :
    (MarionetteRun.runTail none w pos).returned = (false, .failure "EXTERNAL-TIMEOUT" none)
    ∧ (MarionetteRun.runTail none w pos).timeoutRecorded = true := by
  rcases h with h | h | h <;> subst h <;> exact ⟨rfl, rfl⟩

/-- Witness for `MarionetteRun_runTail_guarded_positions`. -/
theorem MarionetteRun_runTail_guarded_positions_witness :
    (MarionetteRun.runTail none (true, .value "late") .afterReturn).returned
      = (false, .failure "EXTERNAL-TIMEOUT" none)
    ∧ (MarionetteRun.runTail none (true, .value "late") .afterReturn).timeoutRecorded = true :=
  MarionetteRun_runTail_guarded_positions (true, .value "late") .afterReturn (Or.inr (Or.inl rfl))

/-!  Session lifecycle: `MarionetteProtocol.setup`, `after_connect`,
`teardown`, `is_alive`, and `MarionetteWebDriverExecutor.setup`.  -/

/-- Outcome of one fallible call into the Marionette client: it returned, or
it raised some exception. -/
inductive StepResult
  | ok
  | throws
deriving DecidableEq

/-- The two messages an executor can send to its runner at the end of setup. -/
inductive Message
  | init_succeeded
  | init_failed
deriving DecidableEq

/-- The port-wait loop of `MarionetteProtocol.setup` (lines 68-72): each
iteration calls `wait_for_port(60)`; the loop breaks when a poll succeeds or
when `debug_args is None` (`debug = false` here).  Given the list of
successive poll outcomes, returns the final value of `success` when the loop
breaks within them, and `none` when the loop is still running after
exhausting them all. -/
def MarionetteProtocol.waitForPortLoop (debug : Bool) : List Bool → Option Bool
  | [] => none
  | p :: rest =>
    if p || !debug then some p else MarionetteProtocol.waitForPortLoop debug rest

/-- In debug mode a port that never opens keeps the loop of lines 68-72
spinning: after any number of failed polls it has not broken. -/
theorem waitForPortLoop_debug_spins (n : ℕ) :
    MarionetteProtocol.waitForPortLoop true (List.replicate n false) = none := by
  induction n with
  | zero => rfl
  | succ k ih => simpa [MarionetteProtocol.waitForPortLoop] using ih

/-- `MarionetteProtocol.after_connect` (lines 115-128): the `navigate` call is
wrapped in its own handler whose body only logs (lines 119-126), after which
the title-setting `execute_script` runs unconditionally; only an exception
from the latter escapes `after_connect`. -/
def MarionetteProtocol.after_connect (navigate execute_script : StepResult) : StepResult :=
  match navigate with
  | .ok => execute_script
  | .throws => execute_script

/-- `MarionetteProtocol.setup` (lines 59-96), as the list of messages sent to
the runner.  `debug` is whether `self.executor.debug_args` is set, `polls`
the successive outcomes of `wait_for_port`, and the `StepResult` arguments
the behaviour of `start_session`, `navigate` and the title-setting
`execute_script`.  An empty message list means the port-wait loop never broke
within `polls` (setup is still inside the while loop and has emitted
nothing). -/
def MarionetteProtocol.setup (debug : Bool) (polls : List Bool)
    (start_session navigate execute_script : StepResult) : List Message :=
  match MarionetteProtocol.waitForPortLoop debug polls with
  | none => []
  | some success =>
    let session_started :=
      success && (match start_session with | .ok => true | .throws => false)
    if !success || !session_started then [.init_failed]
    else
      match MarionetteProtocol.after_connect navigate execute_script with
      | .throws => [.init_failed]
      | .ok => [.init_succeeded]

/-- `MarionetteWebDriverExecutor.setup` (lines 326-341), as the list of
messages sent to the runner, given whether `self.driver.start()` raised. -/
def MarionetteWebDriverExecutor.setup (driver_start : StepResult) : List Message :=
  match driver_start with
  | .throws => [.init_failed]
  | .ok => [.init_succeeded]

/-- The port-wait loop breaks once it is given a successful poll, or
immediately when not running under a debugger. -/
theorem waitForPortLoop_breaks (debug : Bool) (polls : List Bool)
    (h : (debug = false ∧ polls ≠ []) ∨ true ∈ polls) :
    ∃ s, MarionetteProtocol.waitForPortLoop debug polls = some s := by
  induction polls with
  | nil =>
    rcases h with ⟨_, hne⟩ | hmem
    · exact absurd rfl hne
    · simp at hmem
  | cons p rest ih =>
    by_cases hp : (p || !debug) = true
    · exact ⟨p, by simp [MarionetteProtocol.waitForPortLoop, hp]⟩
    · have hp' : p = false ∧ debug = true := by
        cases p <;> cases debug <;> simp_all
      have hstep : MarionetteProtocol.waitForPortLoop debug (p :: rest)
          = MarionetteProtocol.waitForPortLoop debug rest := by
        simp [MarionetteProtocol.waitForPortLoop, hp'.1, hp'.2]
      rw [hstep]
      apply ih
      rcases h with ⟨hdeb, _⟩ | hmem
      · exact absurd hp'.2 (by simp [hdeb])
      · exact Or.inr (by simpa [hp'.1] using hmem)

/-- C4 counterexample: under a debugger (`debug_args` set) with the port
never opening, the while loop of lines 68-72 never breaks, so `setup` has
emitted no message after any number of failed polls (here three) — not
exactly one message. -/
theorem MarionetteProtocol_setup_debug_no_message :
    MarionetteProtocol.setup true [false, false, false] .ok .ok .ok = [] := rfl

/-- C4 amended: whenever the port-wait loop can break — always when not
under a debugger, or as soon as one poll succeeds — every `setup` call emits
exactly one of `init_succeeded` / `init_failed`, in every combination of
handshake, navigate and title-script outcomes; and the protocol-translation
executor's `setup` emits exactly one message whether or not the local proxy
process starts.  Only the debugger-with-port-never-opening case emits
nothing (it never returns). -/
theorem setup_emits_exactly_one_message (debug : Bool) (polls : List Bool)
    (hs nav ex ds : StepResult)
    (h : (debug = false ∧ polls ≠ []) ∨ true ∈ polls) :
    (MarionetteProtocol.setup debug polls hs nav ex).length = 1
    ∧ (MarionetteWebDriverExecutor.setup ds).length = 1 := by
  obtain ⟨s, hsome⟩ := waitForPortLoop_breaks debug polls h
  constructor
  · unfold MarionetteProtocol.setup
    rw [hsome]
    cases s <;> cases hs <;> cases nav <;> cases ex <;> rfl
  · cases ds <;> rfl

/-- Witness for `setup_emits_exactly_one_message`. -/
theorem setup_emits_exactly_one_message_witness :
    (MarionetteProtocol.setup false [false] .throws .ok .ok).length = 1
    ∧ (MarionetteWebDriverExecutor.setup .throws).length = 1 :=
  setup_emits_exactly_one_message false [false] .throws .ok .ok .throws
    (Or.inl ⟨rfl, by decide⟩)

/-- C5 counterexample: the port opens, the handshake succeeds, the bootstrap
`navigate` raises, and the title-setting script succeeds.  The navigation
failure — a failure of the post-connect hook — is caught and logged inside
`after_connect` (lines 119-126) without escaping, so `setup` reports
`init_succeeded`, not `init_failed`. -/
theorem MarionetteProtocol_setup_navigate_failure_succeeds :
    MarionetteProtocol.setup false [true] .ok .throws .ok = [.init_succeeded] := rfl

/-- C5 amended: once the session is up, a failure of the title-setting
`execute_script` in the post-connect hook escapes `after_connect`, is caught
by `setup` (lines 89-94) and reported as `init_failed`; a failure of the
bootstrap navigation alone is swallowed inside `after_connect`, and `setup`
reports `init_succeeded` whenever the title script succeeds, whatever the
navigation did. -/
theorem MarionetteProtocol_setup_after_connect_reporting (debug : Bool)
    (polls : List Bool) (nav : StepResult)
    (h : MarionetteProtocol.waitForPortLoop debug polls = some true) :
    MarionetteProtocol.setup debug polls .ok nav .throws = [.init_failed]
    ∧ MarionetteProtocol.setup debug polls .ok nav .ok = [.init_succeeded] := by
  unfold MarionetteProtocol.setup
  rw [h]
  cases nav <;> exact ⟨rfl, rfl⟩

/-- Witness for `MarionetteProtocol_setup_after_connect_reporting`. -/
theorem MarionetteProtocol_setup_after_connect_reporting_witness :
    MarionetteProtocol.setup false [true] .ok .throws .throws = [.init_failed]
    ∧ MarionetteProtocol.setup false [true] .ok .throws .ok = [.init_succeeded] :=
  MarionetteProtocol_setup_after_connect_reporting false [true] .throws rfl

/-- Python-level attribute state of a `MarionetteProtocol` object relevant to
`teardown`: whether the instance still has the `marionette` attribute.  It is
present from `__init__` (line 56) onwards and removed by the
`del self.marionette` at line 104. -/
structure ProtocolState where
  hasMarionetteAttr : Bool
deriving DecidableEq

/-- Result of executing a Python method: normal return of a value, or an
uncaught exception naming its class. -/
inductive PyResult (α : Type)
  | ok (a : α)
  | raised (exc : String)
deriving DecidableEq

/-- `MarionetteProtocol.teardown` (lines 98-104).  Inside the `try`, both the
attribute lookup `self.marionette` and the `delete_session()` call can raise,
and `except Exception: pass` swallows either (the comment in the source names
the session-never-started case).  The `del self.marionette` at line 104 is
outside the handler; in Python, deleting an attribute that is not present
raises `AttributeError`. -/
def MarionetteProtocol.teardown (s : ProtocolState) (delete_session : StepResult) :
    PyResult ProtocolState :=
  if s.hasMarionetteAttr then
    match delete_session with
    | .ok => .ok ⟨false⟩
    | .throws => .ok ⟨false⟩
  else
    .raised "AttributeError"

/-- C7: on an object that still has its `marionette` attribute (as every
freshly constructed protocol does), `teardown` returns normally whatever
`delete_session` does — including when it raises because no session was ever
started — and the connection handle attribute is removed unconditionally
afterwards. -/
theorem MarionetteProtocol_teardown_never_raises (d : StepResult) :
    MarionetteProtocol.teardown ⟨true⟩ d = .ok ⟨false⟩ := by
  cases d <;> rfl

/-- C10: `teardown` is not idempotent.  The first call removes the
`marionette` attribute; on a second call the lookup failure inside the `try`
is swallowed, but the `del self.marionette` at line 104 — outside the
handler — raises `AttributeError`. -/
theorem MarionetteProtocol_teardown_not_idempotent (d1 d2 : StepResult) :
    MarionetteProtocol.teardown ⟨true⟩ d1 = .ok ⟨false⟩
    ∧ MarionetteProtocol.teardown ⟨false⟩ d2 = .raised "AttributeError" := by
  cases d1 <;> cases d2 <;> exact ⟨rfl, rfl⟩

/-- Outcome of reading the `current_window_handle` property over the
connection (line 110): the fetch returned, or raised an exception of class
`exc`. -/
inductive ProbeOutcome
  | value
  | raises (exc : String)
deriving DecidableEq

/-- `MarionetteProtocol.is_alive` (lines 106-113): fetch a simple property
over the connection; any exception means not alive. -/
def MarionetteProtocol.is_alive : ProbeOutcome → Bool
  | .value => true
  | .raises _ => false

/-- C8: `is_alive` returns `false` whenever the property fetch raises any
exception whatsoever, and `true` exactly when the fetch returns — a dead
connection (whose probes raise) never reports alive. -/
theorem MarionetteProtocol_is_alive_false_on_exception (e : String) (p : ProbeOutcome) :
    MarionetteProtocol.is_alive (.raises e) = false
    ∧ MarionetteProtocol.is_alive .value = true
    ∧ (MarionetteProtocol.is_alive p = true ↔ p = .value) := by
  refine ⟨rfl, rfl, ?_⟩
  cases p <;> simp [MarionetteProtocol.is_alive]

/-!  Reference-test window tracking: `MarionetteRefTestExecutor.do_test`
(lines 267-281) with `close_after_done = true`.  -/

/-- Remote browser window state as seen through the RemoteSession contract:
the ordered list of window handles (most recently opened last), the handle of
the current context, and a counter supplying fresh handles for newly opened
windows.  The browser's original window is handle `0`; windows opened by the
injected reftest script receive the successive handles `1, 2, ...`. -/
structure BrowserState where
  handles : List ℕ
  current : ℕ
  nextId : ℕ
deriving DecidableEq

/-- `marionette.close()` (line 269): closes the current window, removing its
handle from `window_handles`. -/
def BrowserState.close (b : BrowserState) : BrowserState :=
  { b with handles := b.handles.erase b.current }

/-- `switch_to_window(window_handles[-1])` (lines 270-271 and 276): makes the
most recently opened remaining window current.  `window_handles` is never
empty at the call sites, so the default `0` of `getLastD` is never
exercised. -/
def BrowserState.switchToLast (b : BrowserState) : BrowserState :=
  { b with current := b.handles.getLastD 0 }

/-- Modelled from the spec: the driver script `reftest.js` executed at
line 275 is a resource of this repository that is not under src/.  Following
the spec's reference-test policy, injecting the driver script opens a fresh
browser window, which becomes the most recently opened handle. -/
def BrowserState.runReftestScript (b : BrowserState) : BrowserState :=
  ⟨b.handles ++ [b.nextId], b.current, b.nextId + 1⟩

/-- The windows opened by the reftest driver script that are still open (all
handles except the browser's original window `0`). -/
def BrowserState.testWindows (b : BrowserState) : List ℕ :=
  b.handles.filter (fun h => 1 ≤ h)

/-- The window-related state of a `MarionetteRefTestExecutor`. -/
structure RefTestState where
  browser : BrowserState
  has_window : Bool
deriving DecidableEq

/-- Lines 268-272 of `MarionetteRefTestExecutor.do_test` with
`close_after_done = true`: when a window is tracked, close it, switch to the
most recently opened remaining window, and clear `has_window`. -/
def MarionetteRefTestExecutor.closePhase (s : RefTestState) : RefTestState :=
  if s.has_window then ⟨s.browser.close.switchToLast, false⟩ else s

/-- Lines 274-277: when no window is tracked, inject the driver script,
switch to the most recently opened window, and set `has_window`. -/
def MarionetteRefTestExecutor.openPhase (s : RefTestState) : RefTestState :=
  if s.has_window then s else ⟨s.browser.runReftestScript.switchToLast, true⟩

/-- `MarionetteRefTestExecutor.do_test` (lines 267-281) with
`close_after_done = true`, restricted to its window management; the delegated
`self.implementation.run_test(test)` opens, closes and switches no
windows. -/
def MarionetteRefTestExecutor.do_test (s : RefTestState) : RefTestState :=
  MarionetteRefTestExecutor.openPhase (MarionetteRefTestExecutor.closePhase s)

/-- The executor's window state at construction (lines 244-262): `has_window`
is false and only the browser's original window exists. -/
def RefTestState.init : RefTestState := ⟨⟨[0], 0, 1⟩, false⟩

/-- Erasing the tracked handle from a two-window handle list leaves the
original window. -/
theorem erase_zero_cons (k : ℕ) (hk : 1 ≤ k) : ([0, k] : List ℕ).erase k = [0] := by
  have h0 : (0 : ℕ) ≠ k := by omega
  simp [List.erase_cons, h0]

/-- Closed form of the executor state after `n ≥ 1` consecutive tests: the
handles are the original window and the window opened for test `n`, the
latter being current and tracked. -/
theorem refTest_iterate_closed_form (n : ℕ) (hn : 1 ≤ n) :
    MarionetteRefTestExecutor.do_test^[n] RefTestState.init
      = ⟨⟨[0, n], n, n + 1⟩, true⟩ := by
  induction n with
  | zero => omega
  | succ k ih =>
    rcases Nat.eq_zero_or_pos k with hk | hk
    · subst hk
      decide
    · rw [Function.iterate_succ_apply', ih hk]
      simp [MarionetteRefTestExecutor.do_test, MarionetteRefTestExecutor.closePhase,
        MarionetteRefTestExecutor.openPhase, BrowserState.close, BrowserState.switchToLast,
        BrowserState.runReftestScript, erase_zero_cons k hk]

/-- C9: across any number of consecutive `do_test` calls with
`close_after_done = true`, at most one script-opened window is open at a
time; between calls `has_window` is false exactly when no test has run yet;
whenever `has_window` is true the tracked window exists, is the unique open
script-opened window, and is the current context; and immediately after the
close phase of a further call the flag is false again and the previously
tracked window is closed. -/
theorem MarionetteRefTestExecutor_window_invariant (n : ℕ) :
    ((MarionetteRefTestExecutor.do_test^[n] RefTestState.init).browser.testWindows).length ≤ 1
    ∧ ((MarionetteRefTestExecutor.do_test^[n] RefTestState.init).has_window ↔ n ≠ 0)
    ∧ ((MarionetteRefTestExecutor.do_test^[n] RefTestState.init).has_window = true →
        ∃ w, (MarionetteRefTestExecutor.do_test^[n] RefTestState.init).browser.testWindows = [w]
          ∧ (MarionetteRefTestExecutor.do_test^[n] RefTestState.init).browser.current = w)
    ∧ (MarionetteRefTestExecutor.closePhase
        (MarionetteRefTestExecutor.do_test^[n] RefTestState.init)).has_window = false
    ∧ (MarionetteRefTestExecutor.closePhase
        (MarionetteRefTestExecutor.do_test^[n] RefTestState.init)).browser.testWindows = [] := by
  rcases Nat.eq_zero_or_pos n with h | h
  · subst h
    refine ⟨by decide, by decide, ?_, by decide, by decide⟩
    intro hw
    exact absurd hw (by decide)
  · have hne : n ≠ 0 := by omega
    have hdec : decide (1 ≤ n) = true := decide_eq_true h
    rw [refTest_iterate_closed_form n h]
    refine ⟨?_, ?_, ?_, ?_, ?_⟩
    · simp [BrowserState.testWindows, List.filter, hdec]
    · simp [hne]
    · intro _
      exact ⟨n, by simp [BrowserState.testWindows, List.filter, hdec], rfl⟩
    · simp [MarionetteRefTestExecutor.closePhase]
    · simp [MarionetteRefTestExecutor.closePhase, BrowserState.close,
        BrowserState.switchToLast, BrowserState.testWindows, erase_zero_cons n h,
        List.filter]

end Wptrunner
